import Mathlib

/-!
Verification development for the Mail-Service repository: a shallow
embedding of its two FastAPI services (`academic_notify.py`, namespace
`Acad`, and `app.py`, namespace `Store`) together with theorems about
the email dispatch and templating contract.

Modelling conventions:
* Python f-string templates become Lean `String` concatenations.
* `Dict[str, str]` payload entries become association lists
  (`List (String × String)`); `dict.get` becomes `dget` (returns
  `Option String`), `dict[k]` becomes a lookup whose `none` case the
  handler surfaces as a raised `KeyError`.
* Float-typed payload fields (`current_credits`, `required_credits`)
  are carried as the `String` produced by Python's interpolation of the
  float value (Python renders the float `5.0` as `"5.0"`); the pydantic
  default `0.0` therefore becomes `"0.0"`.
* An SMTP session is an oracle (`SmtpOutcome`) giving, for each step of
  the transaction (message build, connect, STARTTLS, login, send, quit),
  either success (`none`) or the text of the exception it raises
  (`some e`).  Transport code is a function of this oracle, so theorems
  quantify over every possible transport outcome.
* Background tasks queued via `background_tasks.add_task` become an
  explicit `List Task` returned by each handler; the HTTP response is
  returned alongside and, by construction, never depends on how those
  tasks would later run (fire-and-forget).
* Python truthiness on strings (`if s:`) is `s ≠ ""`; on optional
  strings it is `pyTruthy`.
-/

namespace MailService

/-- Decidable substring test: `sub` occurs contiguously in `s`. -/
def strContainsB (s sub : String) : Bool :=
  (List.range (s.length + 1)).any fun i => sub.data.isPrefixOf (s.data.drop i)

/-- Propositional substring containment: `s` splits as `l ++ sub ++ r`. -/
def containsS (s sub : String) : Prop := ∃ l r, s = l ++ sub ++ r

/-- Python truthiness of an `Optional[str]`: `None` and `""` are falsy. -/
def pyTruthy : Option String → Bool
  | none => false
  | some s => s ≠ ""

/-- Python `dict.get(k)` on a `Dict[str, str]` payload entry. -/
def dget (d : List (String × String)) (k : String) : Option String :=
  (d.find? fun kv => kv.1 == k).map fun kv => kv.2

/-- Python f-string interpolation of an `Optional[str]`: `None` prints as `"None"`. -/
def pyOptStr (o : Option String) : String := o.getD "None"

/-- One body part of a MIME message: its subtype (`plain`/`html`) and payload. -/
structure MimePart where
  subtype : String
  content : String
deriving DecidableEq, Repr

/-- A fully built outbound MIME message. -/
structure MimeMessage where
  contentType : String
  fromAddr : String
  toAddr : String
  subject : String
  parts : List MimePart
deriving DecidableEq, Repr

/-- Outcome of checking required configuration at process start. -/
inductive StartupResult where
  | ok
  | failed (msg : String)
deriving DecidableEq, Repr

namespace Acad

/-- `SENDER_EMAIL = os.getenv("SMTP_USER", "sjsvardhan@gmail.com")`:
the environment value when present, else the hardcoded default. -/
def SENDER_EMAIL (env_user : Option String) : String :=
  env_user.getD "sjsvardhan@gmail.com"

/-- `SENDER_PASSWORD = os.getenv("SMTP_PASS", "kpke ekfk fqhz cqge")`. -/
def SENDER_PASSWORD (env_pass : Option String) : String :=
  env_pass.getD "kpke ekfk fqhz cqge"

/-- The module-level credential check of `academic_notify.py`
(`if not SENDER_EMAIL or not SENDER_PASSWORD: raise RuntimeError(...)`),
run at import time, i.e. at process start. -/
def startupCheck (env_user env_pass : Option String) : StartupResult :=
  if SENDER_EMAIL env_user = "" ∨ SENDER_PASSWORD env_pass = "" then
    .failed "SMTP credentials not found. Please set SMTP_USER and SMTP_PASS environment variables."
  else .ok

/-- Pydantic model `CourseCreationNotify`. -/
structure CourseCreationNotify where
  course_name : String
  semester : String
  student_emails : List String
deriving DecidableEq, Repr

/-- Pydantic model `FacultyAssignmentNotify`; `students` is a list of
`Dict[str, str]` records (expected keys name/email/roll_number). -/
structure FacultyAssignmentNotify where
  faculty_id : String
  faculty_email : String
  faculty_name : String
  subject_name : String
  students : List (List (String × String)) := []
deriving DecidableEq, Repr

/-- Pydantic model `StudentEnrollmentNotify`. -/
structure StudentEnrollmentNotify where
  student_id : String
  student_name : String
  student_email : String
  subject_name : String
  faculty_id : String
  faculty_email : String
deriving DecidableEq, Repr

/-- Pydantic model `ResultReleaseNotify`; `student_list` is a list of
`Dict[str, str]` records (expected keys email/id). -/
structure ResultReleaseNotify where
  exam_name : String
  student_list : List (List (String × String))
deriving DecidableEq, Repr

/-- Pydantic model `StudentDetentionNotify`. -/
structure StudentDetentionNotify where
  student_id : String
  student_name : String
  student_email : String
  reason : String := "Academic Performance / Attendance Shortage"
deriving DecidableEq, Repr

/-- Pydantic model `StudentCreditShortageNotify`; the two float fields
are carried as their Python string rendering (default `0.0` → `"0.0"`). -/
structure StudentCreditShortageNotify where
  student_id : String
  student_name : String
  student_email : String
  current_credits : String := "0.0"
  required_credits : String := "0.0"
deriving DecidableEq, Repr

/-- Pydantic model `EventNotify`. -/
structure EventNotify where
  event_name : String
  update_type : String
  details : String
  recipient_list : List String
deriving DecidableEq, Repr

/-- The message construction of `send_email_async` (lines 77–85):
`msg = MIMEMultipart()` (content type `multipart/mixed`); then
`if html_body: msg.attach(MIMEText(html_body, "html"))
else: msg.attach(MIMEText(body, "plain"))` — exactly one part is
attached, and the plain `body` is dropped whenever `html_body` is
truthy. -/
def buildMessage (sender to_email subject body : String)
    (html_body : Option String) : MimeMessage :=
  { contentType := "multipart/mixed"
    fromAddr := sender
    toAddr := to_email
    subject := subject
    parts :=
      match html_body with
      | some hb => if hb ≠ "" then [⟨"html", hb⟩] else [⟨"plain", body⟩]
      | none => [⟨"plain", body⟩] }

/-- Per-step outcome of one `send_email_async` try block: `none` means
the step succeeds, `some e` means it raises an exception rendered `e`. -/
structure SmtpOutcome where
  build : Option String
  connect : Option String
  starttls : Option String
  login : Option String
  send : Option String
  quit : Option String
deriving DecidableEq, Repr

/-- The first exception raised by the steps of the transaction, in the
order `send_email_async` performs them. -/
def smtpErr (o : SmtpOutcome) : Option String :=
  o.build <|> o.connect <|> o.starttls <|> o.login <|> o.send <|> o.quit

/-- `send_email_async` (lines 74–100): the whole body is a try block
returning `True` after a completed transaction; `except Exception`
catches any exception from message construction or any SMTP step and
returns `False`.  Its Lean codomain is `Bool` — no error channel, so a
deferred call can never propagate an exception to the task runner. -/
def send_email_async (o : SmtpOutcome) (sender to_email subject body : String)
    (html_body : Option String := none) : Bool :=
  let _msg := buildMessage sender to_email subject body html_body
  match o.build with
  | some _ => false
  | none =>
    match o.connect with
    | some _ => false
    | none =>
      match o.starttls with
      | some _ => false
      | none =>
        match o.login with
        | some _ => false
        | none =>
          match o.send with
          | some _ => false
          | none =>
            match o.quit with
            | some _ => false
            | none => true

/-- One unit of deferred work registered with `background_tasks.add_task`. -/
inductive Task where
  | sendEmail (to_email subject body : String) (html_body : Option String)
  | saveNotification (user_id title message category : String)
deriving DecidableEq, Repr

/-- JSON response body `{"status": ..., "message": ...}` of the academic
endpoints. -/
structure Response where
  status : String
  message : String
deriving DecidableEq, Repr

/-- Outcome of a handler body that may raise (results-release). -/
inductive HandlerOut where
  | ok (r : Response)
  | exn (e : String)
deriving DecidableEq, Repr

/-- Subject of `notify_course_creation`. -/
def courseCreationSubject (data : CourseCreationNotify) : String :=
  "New Courses Available – " ++ data.semester

/-- Body of `notify_course_creation`. -/
def courseCreationBody (data : CourseCreationNotify) : String :=
  "Hello Student,\n\nNew courses for " ++ data.semester ++
    " have been released.\nCourse: " ++ data.course_name ++
    "\n\nPlease login to AcademixAI to register."

/-- Handler `notify_course_creation` (lines 116–137): queues, per student
email, one send task and one notification-log task, then returns the
fixed queued acknowledgment. -/
def notify_course_creation (data : CourseCreationNotify) :
    List Task × Response :=
  let subject := courseCreationSubject data
  let body := courseCreationBody data
  (data.student_emails.flatMap fun email =>
    [Task.sendEmail email subject body none,
     Task.saveNotification "student_id_placeholder" "Course Registration Open" body "ACADEMIC"],
   ⟨"SUCCESS", "Course notifications queued."⟩)

/-- Body of the faculty email in `notify_faculty_assignment`, including
the optional enrolled-students block (`s.get(...)` prints `None` for a
missing key, as in Python). -/
def facultyAssignmentBody (data : FacultyAssignmentNotify) : String :=
  let student_list_text :=
    if data.students.isEmpty then ""
    else "\n\nEnrolled Students List:\n" ++
      String.intercalate "\n" (data.students.map fun s =>
        "- " ++ pyOptStr (dget s "name") ++ " (" ++ pyOptStr (dget s "roll_number") ++ ")")
  "Hello Prof. " ++ data.faculty_name ++
    ",\n\nYou have been assigned to teach:\nSubject: " ++ data.subject_name ++
    "\n" ++ student_list_text ++
    "\n\nPlease check your dashboard for more details."

/-- Handler `notify_faculty_assignment` (lines 140–184): one send task to
the faculty member, one per student record whose `email` key is present
and truthy, and one notification-log task. -/
def notify_faculty_assignment (data : FacultyAssignmentNotify) :
    List Task × Response :=
  let body := facultyAssignmentBody data
  let studentTasks := data.students.flatMap fun student =>
    match dget student "email" with
    | some s_email =>
      if s_email ≠ "" then
        [Task.sendEmail s_email ("Faculty Assigned for " ++ data.subject_name)
          ("Hello " ++ pyOptStr (dget student "name") ++ ",\n\nProf. " ++
            data.faculty_name ++ " has been assigned to teach your course: " ++
            data.subject_name ++ ".\n\nRegards,\nAcademixAI Team") none]
      else []
    | none => []
  ([Task.sendEmail data.faculty_email "New Teaching Assignment" body none] ++
     studentTasks ++
     [Task.saveNotification data.faculty_id "New Teaching Assignment" body "FACULTY"],
   ⟨"SUCCESS", "Faculty and students notified."⟩)

/-- Handler `notify_student_enrollment` (lines 187–226). -/
def notify_student_enrollment (data : StudentEnrollmentNotify) :
    List Task × Response :=
  let facTasks :=
    if data.faculty_email ≠ "" then
      let fac_body := "Hello,\n\nA student has enrolled in your subject: " ++
        data.subject_name ++ ".\nStudent: " ++ data.student_name ++ " (" ++
        data.student_id ++ ")\n\nRegards,\nAcademixAI Team"
      [Task.sendEmail data.faculty_email ("New Enrollment – " ++ data.subject_name) fac_body none,
       Task.saveNotification data.faculty_id "New Student Enrollment" fac_body "ENROLLMENT"]
    else []
  let stuTasks :=
    if data.student_email ≠ "" then
      let stu_body := "Hello " ++ data.student_name ++
        ",\n\nYou have been successfully enrolled in the course: " ++
        data.subject_name ++ " for this semester.\nYou can now access the course materials and syllabus on your dashboard.\n\nBest wishes,\nAcademixAI Team"
      [Task.sendEmail data.student_email ("Enrolled Successfully: " ++ data.subject_name) stu_body none,
       Task.saveNotification data.student_id "Course Enrollment Confirmation" stu_body "ENROLLMENT"]
    else []
  (facTasks ++ stuTasks, ⟨"SUCCESS", "Enrollment notifications queued."⟩)

/-- Subject of `notify_results_release`. -/
def resultsReleaseSubject (exam_name : String) : String :=
  "Results Released – " ++ exam_name

/-- Body of `notify_results_release`. -/
def resultsReleaseBody (exam_name : String) : String :=
  "Dear Student,\n\nResults for " ++ exam_name ++
    " have been published.\nPlease login to AcademixAI to view your grades."

/-- The per-student loop of `notify_results_release`: each iteration
evaluates `student["email"]` (queuing the send task) and then
`student["id"]` (queuing the log task); a missing key raises `KeyError`
at that point, leaving the previously queued tasks in place. -/
def resultsLoop (subject body : String) :
    List (List (String × String)) → List Task → List Task × HandlerOut
  | [], acc => (acc, .ok ⟨"SUCCESS", "Result notifications queued."⟩)
  | student :: rest, acc =>
    match dget student "email" with
    | none => (acc, .exn "KeyError: \x27email\x27")
    | some e =>
      let acc := acc ++ [Task.sendEmail e subject body none]
      match dget student "id" with
      | none => (acc, .exn "KeyError: \x27id\x27")
      | some i =>
        resultsLoop subject body rest
          (acc ++ [Task.saveNotification i "Results Published" body "EXAM"])

/-- Handler `notify_results_release` (lines 229–249). -/
def notify_results_release (data : ResultReleaseNotify) :
    List Task × HandlerOut :=
  resultsLoop (resultsReleaseSubject data.exam_name)
    (resultsReleaseBody data.exam_name) data.student_list []

/-- Plain body of `notify_student_detention` (line 320). -/
def detentionPlainBody (data : StudentDetentionNotify) : String :=
  "URGENT: Your academic status has been updated to DETAINED. Reason: " ++
    data.reason ++ ". Please report to the administration cell immediately."

/-- HTML body of `notify_student_detention` (lines 256–318). -/
def detention_html_body (data : StudentDetentionNotify) : String :=
  "
    <html>
    <body style=\"font-family: \x27Segoe UI\x27, Roboto, Helvetica, Arial, sans-serif; background-color: #0f1115; margin: 0; padding: 0;\">
        <table width=\"100%\" cellpadding=\"0\" cellspacing=\"0\" style=\"background-color: #0f1115; padding: 40px 0;\">
            <tr>
                <td align=\"center\">
                    <table width=\"600\" cellpadding=\"0\" cellspacing=\"0\" style=\"background-color: #1a1d23; border-radius: 24px; overflow: hidden; border: 1px solid rgba(255,255,255,0.05);\">
                        <!-- Header -->
                        <tr>
                            <td style=\"background: linear-gradient(135deg, #ef4444 0%, #b91c1c 100%); padding: 50px 40px; text-align: center;\">
                                <div style=\"display: inline-block; padding: 12px; background: rgba(255,255,255,0.1); border-radius: 12px; margin-bottom: 20px;\">
                                    <span style=\"color: #ffffff; font-size: 32px; font-weight: 800; letter-spacing: -1px;\">ACADEMIX AI</span>
                                </div>
                                <h1 style=\"color: #ffffff; margin: 0; font-size: 28px; font-weight: 800; text-transform: uppercase; letter-spacing: 1px;\">Status Update</h1>
                            </td>
                        </tr>
                        <!-- Body -->
                        <tr>
                            <td style=\"padding: 40px;\">
                                <div style=\"background: rgba(239, 68, 68, 0.1); border-left: 4px solid #ef4444; padding: 20px; border-radius: 12px; margin-bottom: 30px;\">
                                    <h2 style=\"color: #ef4444; margin: 0 0 5px 0; font-size: 18px; font-weight: 700;\">DUE TO ACADEMIC IRREGULARITY</h2>
                                    <p style=\"color: #cbd5e1; margin: 0; font-size: 14px;\">Your status has been updated to <strong>DETAINED</strong></p>
                                </div>

                                <p style=\"color: #94a3b8; line-height: 1.6; margin-bottom: 25px; font-size: 16px;\">
                                    Dear <strong>" ++ data.student_name ++ "</strong>,<br><br>
                                    Following a comprehensive review of your records, the Office of Administration has issued a mandatory <strong>Detention Order</strong>.
                                </p>

                                <div style=\"background: rgba(255,255,255,0.03); border: 1px solid rgba(255,255,255,0.1); padding: 25px; border-radius: 16px; margin-bottom: 30px;\">
                                    <p style=\"color: #e2e8f0; margin: 0; font-weight: 600; margin-bottom: 15px; font-size: 14px; text-transform: uppercase; letter-spacing: 1px;\">Official Reason:</p>
                                    <p style=\"color: #94a3b8; margin: 0; line-height: 1.6; font-style: italic;\">\"" ++ data.reason ++ "\"</p>
                                </div>

                                <div style=\"background: #ef4444; padding: 2px; border-radius: 12px;\">
                                    <div style=\"background: #1a1d23; padding: 20px; border-radius: 10px;\">
                                        <p style=\"color: #ffffff; margin: 0; font-weight: 700; margin-bottom: 10px;\">CONSEQUENCES:</p>
                                        <ul style=\"color: #94a3b8; margin: 0; padding-left: 20px; font-size: 14px; line-height: 1.8;\">
                                            <li>Examination eligibility revoked indefinitely.</li>
                                            <li>Access to course registration portals locked.</li>
                                            <li>Restricted access to specific campus digital resources.</li>
                                        </ul>
                                    </div>
                                </div>

                                <p style=\"color: #94a3b8; line-height: 1.6; margin-top: 30px; font-size: 14px;\">
                                    <strong>Required Action:</strong> Report to the Academic Cell within 24 hours to clarify your standing.
                                </p>
                            </td>
                        </tr>
                        <!-- Footer -->
                        <tr>
                            <td style=\"background-color: #111418; padding: 30px; text-align: center; border-top: 1px solid rgba(255,255,255,0.05);\">
                                <p style=\"color: #64748b; font-size: 13px; margin: 0;\">&copy; 2024 AcademixAI Unified Systems &bull; Administration Module</p>
                            </td>
                        </tr>
                    </table>
                </td>
            </tr>
        </table>
    </body>
    </html>
    "

/-- Handler `notify_student_detention` (lines 252–332). -/
def notify_student_detention (data : StudentDetentionNotify) :
    List Task × Response :=
  ([Task.sendEmail data.student_email "URGENT: Academic Status Update - DETAINED"
      (detentionPlainBody data) (some (detention_html_body data)),
    Task.saveNotification data.student_id "Status Update: DETAINED"
      ("Academic status changed to DETAINED. Reason: " ++ data.reason) "ADMIN_ALERT"],
   ⟨"SUCCESS", "Detention notification queued."⟩)

/-- Plain body of `notify_student_credit_shortage` (line 408). -/
def creditShortagePlainBody (data : StudentCreditShortageNotify) : String :=
  "ACADEMIC ALERT: Credit shortage detected (" ++ data.current_credits ++
    "/" ++ data.required_credits ++
    "). You are at risk of detention. Please check the portal immediately."

/-- HTML body of `notify_student_credit_shortage` (lines 338–406). -/
def creditShortage_html_body (data : StudentCreditShortageNotify) : String :=
  "
    <html>
    <body style=\"font-family: \x27Segoe UI\x27, Roboto, Helvetica, Arial, sans-serif; background-color: #0f1115; margin: 0; padding: 0;\">
        <table width=\"100%\" cellpadding=\"0\" cellspacing=\"0\" style=\"background-color: #0f1115; padding: 40px 0;\">
            <tr>
                <td align=\"center\">
                    <table width=\"600\" cellpadding=\"0\" cellspacing=\"0\" style=\"background-color: #1a1d23; border-radius: 24px; overflow: hidden; border: 1px solid rgba(255,255,255,0.05);\">
                        <!-- Header -->
                        <tr>
                            <td style=\"background: linear-gradient(135deg, #f59e0b 0%, #d97706 100%); padding: 50px 40px; text-align: center;\">
                                <div style=\"display: inline-block; padding: 12px; background: rgba(255,255,255,0.1); border-radius: 12px; margin-bottom: 20px;\">
                                    <span style=\"color: #ffffff; font-size: 32px; font-weight: 800; letter-spacing: -1px;\">ACADEMIX AI</span>
                                </div>
                                <h1 style=\"color: #ffffff; margin: 0; font-size: 28px; font-weight: 800; text-transform: uppercase; letter-spacing: 1px;\">Credit Alert</h1>
                            </td>
                        </tr>
                        <!-- Body -->
                        <tr>
                            <td style=\"padding: 40px;\">
                                <div style=\"background: rgba(245, 158, 11, 0.1); border-left: 4px solid #f59e0b; padding: 20px; border-radius: 12px; margin-bottom: 30px;\">
                                    <h2 style=\"color: #f59e0b; margin: 0 0 5px 0; font-size: 18px; font-weight: 700;\">PROMOTION ELIGIBILITY RISK</h2>
                                    <p style=\"color: #cbd5e1; margin: 0; font-size: 14px;\">Credit shortage detected in your academic profile.</p>
                                </div>

                                <p style=\"color: #94a3b8; line-height: 1.6; margin-bottom: 25px; font-size: 16px;\">
                                    Dear <strong>" ++ data.student_name ++ "</strong>,<br><br>
                                    Our automated performance tracking system has flagged a potential risk regarding your promotion to the next academic year.
                                </p>

                                <div style=\"background: rgba(255,255,255,0.03); border: 1px solid rgba(255,255,255,0.1); padding: 25px; border-radius: 16px; margin-bottom: 30px;\">
                                    <table width=\"100%\" cellpadding=\"0\" cellspacing=\"0\">
                                        <tr>
                                            <td style=\"color: #e2e8f0; font-weight: 600; padding: 10px 0; border-bottom: 1px solid rgba(255,255,255,0.05);\">Current Credits:</td>
                                            <td style=\"color: #f59e0b; font-weight: 800; text-align: right; padding: 10px 0; border-bottom: 1px solid rgba(255,255,255,0.05);\">" ++ data.current_credits ++ "</td>
                                        </tr>
                                        <tr>
                                            <td style=\"color: #e2e8f0; font-weight: 600; padding: 10px 0;\">Required for Promotion:</td>
                                            <td style=\"color: #ffffff; font-weight: 800; text-align: right; padding: 10px 0;\">" ++ data.required_credits ++ "</td>
                                        </tr>
                                    </table>
                                </div>

                                <div style=\"background: rgba(255,255,255,0.02); border-left: 4px solid #64748b; padding: 20px; border-radius: 8px;\">
                                    <p style=\"color: #ffffff; margin: 0; font-weight: 700; margin-bottom: 15px; font-size: 14px; text-transform: uppercase;\">Required Next Steps:</p>
                                    <ul style=\"color: #94a3b8; margin: 0; padding-left: 20px; font-size: 14px; line-height: 1.8;\">
                                        <li>Verify all subject results on the Student Dashboard.</li>
                                        <li>Apply for immediate supplementary exams (if available).</li>
                                        <li>Schedule a consultation with your Faculty Advisor.</li>
                                    </ul>
                                </div>

                                <p style=\"color: #64748b; font-size: 12px; margin-top: 30px; font-style: italic;\">
                                    Note: Failure to reach the required credit threshold may result in academic detention according to University regulations.
                                </p>
                            </td>
                        </tr>
                        <!-- Footer -->
                        <tr>
                            <td style=\"background-color: #111418; padding: 30px; text-align: center; border-top: 1px solid rgba(255,255,255,0.05);\">
                                <p style=\"color: #64748b; font-size: 13px; margin: 0;\">&copy; 2024 AcademixAI Unified Systems &bull; Academic Surveillance</p>
                            </td>
                        </tr>
                    </table>
                </td>
            </tr>
        </table>
    </body>
    </html>
    "

/-- Handler `notify_student_credit_shortage` (lines 334–420). -/
def notify_student_credit_shortage (data : StudentCreditShortageNotify) :
    List Task × Response :=
  ([Task.sendEmail data.student_email "Academic Warning: Credit Shortage Detected"
      (creditShortagePlainBody data) (some (creditShortage_html_body data)),
    Task.saveNotification data.student_id "Status Warning: Credit Shortage"
      ("Credit Shortage detected (" ++ data.current_credits ++ "/" ++
        data.required_credits ++ "). Risk of detention.") "ACADEMIC_ALERT"],
   ⟨"SUCCESS", "Credit shortage notification queued."⟩)

/-- Accent colour chosen in `notify_event_update`:
`is_cancelled = data.update_type == "CANCELLED"`,
`accent_color = "#ef4444" if is_cancelled else "#6366f1"`. -/
def accent_color (update_type : String) : String :=
  if update_type == "CANCELLED" then "#ef4444" else "#6366f1"

/-- `secondary_accent = "#991b1b" if is_cancelled else "#4338ca"`. -/
def secondary_accent (update_type : String) : String :=
  if update_type == "CANCELLED" then "#991b1b" else "#4338ca"

/-- `bg_gradient = f"linear-gradient(135deg, {accent_color} 0%, {secondary_accent} 100%)"`. -/
def bg_gradient (update_type : String) : String :=
  "linear-gradient(135deg, " ++ accent_color update_type ++ " 0%, " ++
    secondary_accent update_type ++ " 100%)"

/-- Subject of `notify_event_update` (line 426): it interpolates only the
event name — `update_type` does not appear in it. -/
def eventSubject (data : EventNotify) : String :=
  "URGENT: " ++ data.event_name ++ " Update"

/-- Plain body of `notify_event_update` (line 491). -/
def eventPlainBody (data : EventNotify) : String :=
  "URGENT: " ++ data.event_name ++ " has been " ++ data.update_type ++
    ".\nDetails: " ++ data.details ++ "\nPlease check the portal for more info."

/-- HTML body of `notify_event_update` (lines 434–489). -/
def event_html_content (data : EventNotify) : String :=
  "
    <html>
    <body style=\"font-family: \x27Segoe UI\x27, Roboto, Helvetica, Arial, sans-serif; background-color: #0f1115; margin: 0; padding: 0;\">
        <table width=\"100%\" cellpadding=\"0\" cellspacing=\"0\" style=\"background-color: #0f1115; padding: 40px 0;\">
            <tr>
                <td align=\"center\">
                    <table width=\"600\" cellpadding=\"0\" cellspacing=\"0\" style=\"background-color: #1a1d23; border-radius: 32px; overflow: hidden; border: 1px solid rgba(255,255,255,0.05); box-shadow: 0 25px 50px -12px rgba(0, 0, 0, 0.5);\">
                        <!-- Header -->
                        <tr>
                            <td style=\"background: " ++ bg_gradient data.update_type ++ "; padding: 60px 40px; text-align: center;\">
                                <div style=\"display: inline-block; padding: 12px 20px; background: rgba(255,255,255,0.1); border-radius: 100px; margin-bottom: 24px; border: 1px solid rgba(255,255,255,0.2);\">
                                    <span style=\"color: #ffffff; font-size: 12px; font-weight: 800; text-transform: uppercase; letter-spacing: 2px;\">Unified Campus Protocol</span>
                                </div>
                                <h1 style=\"color: #ffffff; margin: 0; font-size: 32px; font-weight: 800; letter-spacing: -1px; line-height: 1.2;\">" ++ data.event_name ++ "</h1>
                                <p style=\"color: rgba(255,255,255,0.8); margin: 12px 0 0 0; font-size: 16px; font-weight: 500;\">Status: <span style=\"color: #ffffff; font-weight: 700;\">" ++ data.update_type ++ "</span></p>
                            </td>
                        </tr>
                        <!-- Content -->
                        <tr>
                            <td style=\"padding: 50px 40px;\">
                                <h2 style=\"color: #ffffff; margin: 0 0 20px 0; font-size: 20px; font-weight: 700;\">Important Notification</h2>
                                <p style=\"color: #94a3b8; line-height: 1.8; margin-bottom: 30px; font-size: 16px;\">
                                    Dear Participant,<br><br>
                                    This is an official update regarding your registration for <strong>" ++ data.event_name ++ "</strong>.
                                    Please review the detailed changes below to ensure your schedule remains synchronised.
                                </p>

                                <div style=\"background: rgba(255,255,255,0.03); border: 1px solid rgba(255,255,255,0.08); padding: 30px; border-radius: 24px; margin-bottom: 30px;\">
                                    <h4 style=\"color: #e2e8f0; margin: 0 0 15px 0; font-size: 14px; text-transform: uppercase; letter-spacing: 1px; font-weight: 700;\">Adjustment Log:</h4>
                                    <p style=\"color: #cbd5e1; margin: 0; line-height: 1.6; font-size: 15px;\">" ++ data.details ++ "</p>
                                </div>

                                <div style=\"text-align: center; margin-top: 20px;\">
                                    <p style=\"color: #64748b; font-size: 14px;\">Please update your calendars accordingly.</p>
                                </div>
                            </td>
                        </tr>
                        <!-- Footer -->
                        <tr>
                            <td style=\"background-color: #111418; padding: 40px; text-align: center; border-top: 1px solid rgba(255,255,255,0.05);\">
                                <div style=\"margin-bottom: 20px;\">
                                    <span style=\"color: #ffffff; font-size: 18px; font-weight: 800; letter-spacing: -0.5px;\">ACADEMIX AI</span>
                                </div>
                                <p style=\"color: #475569; font-size: 13px; margin: 0; line-height: 1.5;\">
                                    &copy; 2024 Unified Academic Systems. All records encrypted.<br>
                                    This is an automated priority dispatch. Do not reply.
                                </p>
                            </td>
                        </tr>
                    </table>
                </td>
            </tr>
        </table>
    </body>
    </html>
    "

/-- Handler `notify_event_update` (lines 423–496): one send task per
recipient, all sharing one rendering; the response interpolates the
event name. -/
def notify_event_update (data : EventNotify) : List Task × Response :=
  (data.recipient_list.map fun email =>
    Task.sendEmail email (eventSubject data) (eventPlainBody data)
      (some (event_html_content data)),
   ⟨"SUCCESS", "Alerts sent for " ++ data.event_name ++ "."⟩)

/-- Abstraction of the external pydantic `EmailStr` validator (the
repository delegates to the `email-validator` library, which is not part
of this codebase): the address must split as `local@domain` with a
nonempty local part and a dotted nonempty domain.  Only two facts about
it are used by the theorems below: strings without an `@` (such as
`"not-an-email"`) are rejected, and ordinary addresses are accepted. -/
def isValidEmail (s : String) : Bool :=
  let cs := s.data
  let localPart := cs.takeWhile fun c => c != '@'
  match cs.dropWhile fun c => c != '@' with
  | [] => false
  | _ :: domain =>
    !localPart.isEmpty && !domain.isEmpty &&
      domain.all (fun c => c != '@') && domain.contains '.'

/-- Schema validation of `CourseCreationNotify`: `student_emails` is
`List[EmailStr]`, so every element is syntax-checked. -/
def validateCourseCreation (d : CourseCreationNotify) : Bool :=
  d.student_emails.all isValidEmail

/-- Schema validation of `FacultyAssignmentNotify`: only `faculty_email`
is an `EmailStr`; `students` is `List[Dict[str, str]]`, whose `email`
values undergo no syntax check. -/
def validateFacultyAssignment (d : FacultyAssignmentNotify) : Bool :=
  isValidEmail d.faculty_email

/-- Schema validation of `StudentEnrollmentNotify`. -/
def validateStudentEnrollment (d : StudentEnrollmentNotify) : Bool :=
  isValidEmail d.student_email && isValidEmail d.faculty_email

/-- Schema validation of `ResultReleaseNotify`: `student_list` is
`List[Dict[str, str]]` — no `EmailStr` field, no required keys inside
the entries, so every list of string-to-string records is accepted. -/
def validateResultRelease (_d : ResultReleaseNotify) : Bool := true

/-- Schema validation of `StudentDetentionNotify`. -/
def validateStudentDetention (d : StudentDetentionNotify) : Bool :=
  isValidEmail d.student_email

/-- Schema validation of `StudentCreditShortageNotify`. -/
def validateCreditShortage (d : StudentCreditShortageNotify) : Bool :=
  isValidEmail d.student_email

/-- Schema validation of `EventNotify`: `recipient_list` is `List[EmailStr]`. -/
def validateEventNotify (d : EventNotify) : Bool :=
  d.recipient_list.all isValidEmail

/-- Result of one request to an academic endpoint, as seen at the HTTP
boundary together with the deferred work it registered. -/
inductive EndpointOut where
  | clientError (code : Nat) (detail : String)
  | serverRaise (tasksQueued : List Task) (exc : String)
  | success (tasksQueued : List Task) (resp : Response)
deriving DecidableEq, Repr

/-- The framework's 422 response for a payload failing schema validation. -/
def validationFailure : EndpointOut := .clientError 422 "validation error"

/-- The send tasks registered by a request, projected to their recipient
addresses: one entry per mail-transport invocation the request causes. -/
def EndpointOut.queuedSends : EndpointOut → List String
  | .clientError _ _ => []
  | .serverRaise ts _ => ts.filterMap fun t =>
      match t with
      | .sendEmail to_email _ _ _ => some to_email
      | .saveNotification _ _ _ _ => none
  | .success ts _ => ts.filterMap fun t =>
      match t with
      | .sendEmail to_email _ _ _ => some to_email
      | .saveNotification _ _ _ _ => none

/-- The HTTP response body, when the request produced one. -/
def EndpointOut.respOf : EndpointOut → Option Response
  | .success _ r => some r
  | _ => none

/-- Whether the request was rejected as a client error. -/
def EndpointOut.isClientError : EndpointOut → Bool
  | .clientError _ _ => true
  | _ => false

/-- `POST /api/v1/notify/course-creation`: schema validation, then the
handler. -/
def courseCreationEndpoint (d : CourseCreationNotify) : EndpointOut :=
  if validateCourseCreation d then
    let (ts, r) := notify_course_creation d
    .success ts r
  else validationFailure

/-- `POST /api/v1/notify/faculty-assignment`. -/
def facultyAssignmentEndpoint (d : FacultyAssignmentNotify) : EndpointOut :=
  if validateFacultyAssignment d then
    let (ts, r) := notify_faculty_assignment d
    .success ts r
  else validationFailure

/-- `POST /api/v1/notify/student-enrollment`. -/
def studentEnrollmentEndpoint (d : StudentEnrollmentNotify) : EndpointOut :=
  if validateStudentEnrollment d then
    let (ts, r) := notify_student_enrollment d
    .success ts r
  else validationFailure

/-- `POST /api/v1/notify/results-release`: validation never fails; an
exception escaping the handler becomes an unhandled server error, with
the tasks registered before the raise still queued. -/
def resultsReleaseEndpoint (d : ResultReleaseNotify) : EndpointOut :=
  if validateResultRelease d then
    match notify_results_release d with
    | (ts, .ok r) => .success ts r
    | (ts, .exn e) => .serverRaise ts e
  else validationFailure

/-- `POST /api/v1/notify/student-detention`. -/
def studentDetentionEndpoint (d : StudentDetentionNotify) : EndpointOut :=
  if validateStudentDetention d then
    let (ts, r) := notify_student_detention d
    .success ts r
  else validationFailure

/-- `POST /api/v1/notify/student-credit-shortage`. -/
def creditShortageEndpoint (d : StudentCreditShortageNotify) : EndpointOut :=
  if validateCreditShortage d then
    let (ts, r) := notify_student_credit_shortage d
    .success ts r
  else validationFailure

/-- `POST /api/v1/notify/event-update`. -/
def eventUpdateEndpoint (d : EventNotify) : EndpointOut :=
  if validateEventNotify d then
    let (ts, r) := notify_event_update d
    .success ts r
  else validationFailure

end Acad

namespace Store

/-- `Settings.SMTP_USER = os.getenv("SMTP_USER")` — no default. -/
def SMTP_USER (env_user : Option String) : Option String := env_user

/-- `Settings.SMTP_PASS = os.getenv("SMTP_PASS")` — no default. -/
def SMTP_PASS (env_pass : Option String) : Option String := env_pass

/-- The `@app.on_event("startup")` hook `validate_env` of `app.py`
(lines 49–54): raises, aborting startup, when either credential is
falsy (absent or empty). -/
def validate_env (env_user env_pass : Option String) : StartupResult :=
  if pyTruthy (SMTP_USER env_user) = false then
    .failed "SMTP_USER environment variable missing"
  else if pyTruthy (SMTP_PASS env_pass) = false then
    .failed "SMTP_PASS environment variable missing"
  else .ok

/-- The placeholder plain part `send_html_email` substitutes when no
`plain_fallback` is given (or it is falsy). -/
def plainPlaceholder : String := "Please view this email in an HTML-capable client."

/-- The message construction of `send_html_email` (lines 68–76):
`msg.set_content(plain_fallback or "...")` makes a plain part, then
`msg.add_alternative(html_body, subtype="html")` turns the message into
a `multipart/alternative` carrying the plain part and the HTML part. -/
def buildMessage (sender to_email subject html_body : String)
    (plain_fallback : Option String) : MimeMessage :=
  { contentType := "multipart/alternative"
    fromAddr := "SynapStore <" ++ sender ++ ">"
    toAddr := to_email
    subject := subject
    parts :=
      [⟨"plain",
        match plain_fallback with
        | some pf => if pf ≠ "" then pf else plainPlaceholder
        | none => plainPlaceholder⟩,
       ⟨"html", html_body⟩] }

/-- Per-step outcome of one `send_html_email` SMTP session. -/
structure SmtpOutcome where
  connect : Option String
  ehlo : Option String
  starttls : Option String
  login : Option String
  send : Option String
deriving DecidableEq, Repr

/-- The first exception raised by the session's steps, in order. -/
def smtpErr (o : SmtpOutcome) : Option String :=
  o.connect <|> o.ehlo <|> o.starttls <|> o.login <|> o.send

/-- Result of `send_html_email`: unlike the academic transport it has an
error channel — both `except` arms re-`raise`, so any exception
propagates to the caller unchanged. -/
inductive SendResult where
  | sent
  | raised (e : String)
deriving DecidableEq, Repr

/-- `send_html_email` (lines 60–98): build the message, run the SMTP
session, return `True` on success, re-raise the first exception
otherwise. -/
def send_html_email (o : SmtpOutcome) (sender to_email subject html_body : String)
    (plain_fallback : Option String := none) : SendResult :=
  let _msg := buildMessage sender to_email subject html_body plain_fallback
  match smtpErr o with
  | none => .sent
  | some e => .raised e

/-- Pydantic model `SupplierToStoreRequest`; `items : Dict[str, int]`
becomes an insertion-ordered association list. -/
structure SupplierToStoreRequest where
  to_email : String
  store_name : String
  supplier_name : String
  invoice_id : String
  items : List (String × Int)
  expected_delivery : String
deriving DecidableEq, Repr

/-- Pydantic model `SupplierFailureRequest`. -/
structure SupplierFailureRequest where
  to_email : String
  store_name : String
  store_email : String
  supplier_name : String
  invoice_id : String
  failure_reason : String
deriving DecidableEq, Repr

/-- Response of a synchronous supplier endpoint: either the JSON body
`{"status": "success"}` or an `HTTPException(status_code, detail)`. -/
inductive StoreOut where
  | ok (status : String)
  | httpError (code : Nat) (detail : String)
deriving DecidableEq, Repr

/-- The item table rows of the supplier-to-store HTML body. -/
def itemsRows (items : List (String × Int)) : String :=
  String.join (items.map fun iq =>
    "
        <tr>
            <td style=\"padding:8px;border:1px solid #ddd;\">" ++ iq.1 ++ "</td>
            <td style=\"padding:8px;border:1px solid #ddd;text-align:center;\">" ++ toString iq.2 ++ "</td>
        </tr>
        ")

/-- HTML body of `supplier_to_storeowner_email` (lines 140–161). -/
def supplierToStoreHtml (payload : SupplierToStoreRequest) : String :=
  "
    <html>
      <body style=\"font-family:Arial,sans-serif;\">
        <h2>Stock Dispatch Notification</h2>
        <p><strong>" ++ payload.supplier_name ++ "</strong> has dispatched stock.</p>
        <p><strong>Invoice:</strong> " ++ payload.invoice_id ++ "</p>
        <p><strong>Expected Delivery:</strong> " ++ payload.expected_delivery ++ "</p>

        <table width=\"100%\" cellpadding=\"6\" cellspacing=\"0\" border=\"1\">
          <thead>
            <tr>
              <th>Item</th>
              <th>Quantity</th>
            </tr>
          </thead>
          <tbody>
            " ++ itemsRows payload.items ++ "
          </tbody>
        </table>
      </body>
    </html>
    "

/-- `POST /email/supplier-to-store` (lines 125–172): render, send
synchronously, return `{"status": "success"}` on success and a 500
response whose detail is `str(e)` when the transport raises. -/
def supplier_to_storeowner_email (o : SmtpOutcome) (sender : String)
    (payload : SupplierToStoreRequest) : StoreOut :=
  let subject := "Stock Dispatched to " ++ payload.store_name ++
    " | Invoice #" ++ payload.invoice_id
  match send_html_email o sender payload.to_email subject
      (supplierToStoreHtml payload) none with
  | .sent => .ok "success"
  | .raised e => .httpError 500 e

/-- HTML body of `supplier_delivery_failed_email` (lines 181–193); the
`timestamp` argument stands for `datetime.utcnow().strftime(...)`. -/
def supplierFailureHtml (payload : SupplierFailureRequest) (timestamp : String) : String :=
  "
    <html>
      <body style=\"font-family:Arial,sans-serif;\">
        <h2 style=\"color:#d9534f;\">Email Delivery Failed</h2>
        <p><strong>Supplier:</strong> " ++ payload.supplier_name ++ "</p>
        <p><strong>Store:</strong> " ++ payload.store_name ++ "</p>
        <p><strong>Store Email:</strong> " ++ payload.store_email ++ "</p>
        <p><strong>Invoice:</strong> " ++ payload.invoice_id ++ "</p>
        <p><strong>Time:</strong> " ++ timestamp ++ "</p>
        <p><strong>Reason:</strong> " ++ payload.failure_reason ++ "</p>
      </body>
    </html>
    "

/-- `POST /email/supplier-delivery-failed` (lines 175–204). -/
def supplier_delivery_failed_email (o : SmtpOutcome) (sender : String)
    (payload : SupplierFailureRequest) (timestamp : String) : StoreOut :=
  let subject := "Delivery Notification Failed | Invoice #" ++ payload.invoice_id
  match send_html_email o sender payload.to_email subject
      (supplierFailureHtml payload timestamp) none with
  | .sent => .ok "success"
  | .raised e => .httpError 500 e

end Store

/-- A string contains a middle segment of its concatenation. -/
theorem containsS_mid (l sub r : String) : containsS (l ++ sub ++ r) sub :=
  ⟨l, r, rfl⟩

/-- A string contains its final segment. -/
theorem containsS_last (l sub : String) : containsS (l ++ sub) sub :=
  ⟨l, "", by simp⟩

/-- Containment is preserved by prepending. -/
theorem containsS_appL (a : String) {b sub : String} (h : containsS b sub) :
    containsS (a ++ b) sub := by
  obtain ⟨l, r, rfl⟩ := h
  exact ⟨a ++ l, r, by simp [String.append_assoc]⟩

/-- Containment is preserved by appending. -/
theorem containsS_appR {a sub : String} (b : String) (h : containsS a sub) :
    containsS (a ++ b) sub := by
  obtain ⟨l, r, rfl⟩ := h
  exact ⟨l, r ++ b, by simp [String.append_assoc]⟩

/-- C1 counterexample: `send_email_async` given an htmlBody transmits a
message that is not multipart alternative and carries only the HTML
part — the plain-text body is dropped entirely. -/
theorem C1_htmlMessage_counterexample :
    (Acad.buildMessage "svc@uni.edu" "stu@uni.edu" "Subject" "plain text body"
        (some "<p>update</p>")).contentType ≠ "multipart/alternative" ∧
    (Acad.buildMessage "svc@uni.edu" "stu@uni.edu" "Subject" "plain text body"
        (some "<p>update</p>")).parts = [⟨"html", "<p>update</p>"⟩] := by
  exact ⟨by decide, rfl⟩

/-- C1 amended: the app.py transport (`send_html_email`) always
transmits a multipart alternative carrying a plain part (the supplied
fallback, or a fixed placeholder when none is given) and the HTML part;
the academic transport (`send_email_async`) instead transmits a
multipart (mixed) message with exactly one part — the HTML body alone
when htmlBody is truthy, otherwise the plain body alone. -/
theorem C1_mimeConstruction :
    ∀ (sender rcpt subj body hb pf : String),
      (Acad.buildMessage sender rcpt subj body (some hb)).contentType = "multipart/mixed" ∧
      (Acad.buildMessage sender rcpt subj body (some hb)).parts =
        (if hb = "" then [⟨"plain", body⟩] else [⟨"html", hb⟩]) ∧
      (Acad.buildMessage sender rcpt subj body none).parts = [⟨"plain", body⟩] ∧
      (Store.buildMessage sender rcpt subj hb (some pf)).contentType = "multipart/alternative" ∧
      (Store.buildMessage sender rcpt subj hb (some pf)).parts =
        [⟨"plain", if pf = "" then Store.plainPlaceholder else pf⟩, ⟨"html", hb⟩] ∧
      (Store.buildMessage sender rcpt subj hb none).parts =
        [⟨"plain", Store.plainPlaceholder⟩, ⟨"html", hb⟩] := by
  intro sender rcpt subj body hb pf
  refine ⟨rfl, ?_, rfl, rfl, ?_, rfl⟩
  · by_cases h : hb = "" <;> simp [Acad.buildMessage, h]
  · by_cases h : pf = "" <;> simp [Store.buildMessage, h]

/-- C3 counterexample: a valid credit-shortage event whose plain body
does not contain the event's `student_name` field — so the plain body
does not contain every literal data field of the event. -/
theorem C3_plainBodyOmitsName_counterexample :
    Acad.validateCreditShortage ⟨"S1", "Alice", "alice@uni.edu", "5.0", "20.0"⟩ = true ∧
    strContainsB
      (Acad.creditShortagePlainBody ⟨"S1", "Alice", "alice@uni.edu", "5.0", "20.0"⟩)
      "Alice" = false := by
  exact ⟨by decide, by decide⟩

/-- C3 amended: the rendered plain bodies contain the fields the
templates interpolate — the credit-shortage plain body contains both
credit values verbatim (in particular `"5.0"` and `"20.0"` for
current_credits=5.0, required_credits=20.0) and the detention plain body
contains the reason text — but not every field of the event: the
student name and id are absent from those plain bodies. -/
theorem C3_plainBodyFieldContainment :
    ∀ (d : Acad.StudentCreditShortageNotify) (e : Acad.StudentDetentionNotify),
      containsS (Acad.creditShortagePlainBody d) d.current_credits ∧
      containsS (Acad.creditShortagePlainBody d) d.required_credits ∧
      containsS (Acad.detentionPlainBody e) e.reason ∧
      strContainsB
        (Acad.creditShortagePlainBody ⟨"S1", "Alice", "alice@uni.edu", "5.0", "20.0"⟩)
        "5.0" = true ∧
      strContainsB
        (Acad.creditShortagePlainBody ⟨"S1", "Alice", "alice@uni.edu", "5.0", "20.0"⟩)
        "20.0" = true := by
  intro d e
  refine ⟨?_, ?_, ?_, by decide, by decide⟩
  · unfold Acad.creditShortagePlainBody
    exact containsS_appR _ (containsS_appR _ (containsS_mid _ _ _))
  · unfold Acad.creditShortagePlainBody
    exact containsS_appR _ (containsS_last _ _)
  · unfold Acad.detentionPlainBody
    exact containsS_mid _ _ _

/-- C6 counterexample: for update_type="CANCELLED" the rendered subject
is "URGENT: <event_name> Update" and contains no "CANCELLED"-associated
wording. -/
theorem C6_subjectLacksUpdateType_counterexample :
    Acad.eventSubject ⟨"Tech Fest", "CANCELLED", "Venue closed", []⟩ =
      "URGENT: Tech Fest Update" ∧
    strContainsB (Acad.eventSubject ⟨"Tech Fest", "CANCELLED", "Venue closed", []⟩)
      "CANCELLED" = false := by
  exact ⟨rfl, by decide⟩

/-- C6 amended: the subject is "URGENT: <event_name> Update" regardless
of update_type; it is the HTML and plain bodies that carry the
update_type wording, and the accent is a function of update_type alone,
distinct between "CANCELLED" (#ef4444) and "RESCHEDULED" (#6366f1),
with the chosen accent appearing in the rendered HTML. -/
theorem C6_eventUpdateAccent :
    ∀ (d : Acad.EventNotify),
      Acad.eventSubject d = "URGENT: " ++ d.event_name ++ " Update" ∧
      containsS (Acad.eventPlainBody d) d.update_type ∧
      containsS (Acad.event_html_content d) (Acad.accent_color d.update_type) ∧
      Acad.accent_color "CANCELLED" = "#ef4444" ∧
      Acad.accent_color "RESCHEDULED" = "#6366f1" ∧
      Acad.accent_color "CANCELLED" ≠ Acad.accent_color "RESCHEDULED" := by
  intro d
  refine ⟨rfl, ?_, ?_, rfl, rfl, by decide⟩
  · unfold Acad.eventPlainBody
    exact containsS_appR _ (containsS_appR _ (containsS_mid _ _ _))
  · unfold Acad.event_html_content
    refine containsS_appR _ (containsS_appR _ (containsS_appR _ (containsS_appR _
      (containsS_appR _ (containsS_appR _ (containsS_appR _ (containsS_appR _
        (containsS_appR _ (containsS_appL _ ?_)))))))))
    unfold Acad.bg_gradient
    exact containsS_appR _ (containsS_appR _ (containsS_mid _ _ _))

/-- C2 counterexample: a faculty-assignment payload whose student
sub-record carries the syntactically invalid address "not-an-email"
passes schema validation (no client error) and causes a queued transport
invocation addressed to that invalid string. -/
theorem C2_subRecordEmailUnvalidated_counterexample :
    Acad.isValidEmail "not-an-email" = false ∧
    (Acad.facultyAssignmentEndpoint ⟨"F1", "prof@uni.edu", "Ada", "Algorithms",
        [[("name", "Stu"), ("email", "not-an-email"), ("roll_number", "R1")]]⟩).isClientError
      = false ∧
    (Acad.facultyAssignmentEndpoint ⟨"F1", "prof@uni.edu", "Ada", "Algorithms",
        [[("name", "Stu"), ("email", "not-an-email"), ("roll_number", "R1")]]⟩).queuedSends.contains
      "not-an-email" = true := by
  exact ⟨by decide, by decide, by decide⟩

/-- C2 amended: invalid syntax in a top-level EmailStr recipient field is
rejected with a client-error response before any transport invocation
(zero queued sends); email strings inside dict sub-record lists
(faculty-assignment `students`, results-release `student_list`) are not
syntax-validated and are handed to the transport as-is. -/
theorem C2_topLevelEmailValidation :
    ∀ (d : Acad.FacultyAssignmentNotify) (c : Acad.CourseCreationNotify),
      Acad.isValidEmail d.faculty_email = false →
      c.student_emails.all Acad.isValidEmail = false →
      Acad.facultyAssignmentEndpoint d = Acad.validationFailure ∧
      (Acad.facultyAssignmentEndpoint d).queuedSends = [] ∧
      Acad.courseCreationEndpoint c = Acad.validationFailure ∧
      (Acad.courseCreationEndpoint c).queuedSends = [] := by
  intro d c h1 h2
  refine ⟨?_, ?_, ?_, ?_⟩ <;>
    simp [Acad.facultyAssignmentEndpoint, Acad.courseCreationEndpoint,
      Acad.validateFacultyAssignment, Acad.validateCourseCreation, h1, h2,
      Acad.validationFailure, Acad.EndpointOut.queuedSends]

/-- C2 witness: the amended theorem applied to concrete payloads with
the invalid address "bad-address" in the top-level fields. -/
theorem C2_topLevelEmailValidation_witness :
    Acad.facultyAssignmentEndpoint ⟨"F1", "bad-address", "Ada", "Algorithms", []⟩ =
        Acad.validationFailure ∧
      (Acad.facultyAssignmentEndpoint ⟨"F1", "bad-address", "Ada", "Algorithms", []⟩).queuedSends = [] ∧
      Acad.courseCreationEndpoint ⟨"Algebra", "Fall 2025", ["bad-address"]⟩ =
        Acad.validationFailure ∧
      (Acad.courseCreationEndpoint ⟨"Algebra", "Fall 2025", ["bad-address"]⟩).queuedSends = [] :=
  C2_topLevelEmailValidation ⟨"F1", "bad-address", "Ada", "Algorithms", []⟩
    ⟨"Algebra", "Fall 2025", ["bad-address"]⟩ (by decide) (by decide)

/-- C4 counterexample: a validated course-creation request with two
recipients receives the fixed acknowledgment "Course notifications
queued.", not a message of the form "&lt;n&gt; notifications queued". -/
theorem C4_queuedMessageForm_counterexample :
    (Acad.courseCreationEndpoint ⟨"Algorithms", "Fall 2025",
        ["a@uni.edu", "b@uni.edu"]⟩).respOf =
      some ⟨"SUCCESS", "Course notifications queued."⟩ ∧
    (Acad.courseCreationEndpoint ⟨"Algorithms", "Fall 2025",
        ["a@uni.edu", "b@uni.edu"]⟩).queuedSends = ["a@uni.edu", "b@uni.edu"] ∧
    "Course notifications queued." ≠ "2 notifications queued" := by
  exact ⟨by decide, by decide, by decide⟩

/-- When every student_list entry carries both the "email" and the "id"
key, the results-release loop completes without raising and returns the
fixed queued acknowledgment, whatever tasks are already accumulated. -/
theorem resultsLoop_allKeys :
    ∀ (subject body : String) (entries : List (List (String × String)))
      (acc : List Acad.Task),
      (entries.all fun st => (dget st "email").isSome && (dget st "id").isSome) = true →
      (Acad.resultsLoop subject body entries acc).2 =
        Acad.HandlerOut.ok ⟨"SUCCESS", "Result notifications queued."⟩ := by
  intro subject body entries
  induction entries with
  | nil => intro acc _; rfl
  | cons st rest ih =>
    intro acc h
    simp only [List.all_cons, Bool.and_eq_true] at h
    obtain ⟨⟨he, hi⟩, hrest⟩ := h
    obtain ⟨e, he'⟩ := Option.isSome_iff_exists.mp he
    obtain ⟨i, hi'⟩ := Option.isSome_iff_exists.mp hi
    simp only [Acad.resultsLoop, he', hi']
    exact ih _ hrest

/-- C4 amended: once validation passes, each fire-and-forget academic
endpoint returns status SUCCESS with a fixed endpoint-specific
acknowledgment (never a "&lt;n&gt; notifications queued" count),
computed from the payload alone with the deferred tasks merely queued —
no transport outcome can influence it — with one carve-out forced by
C10: results-release additionally requires every student_list entry to
carry the "email" and "id" keys, and raises an unhandled KeyError
instead of returning the acknowledgment when one is missing. -/
theorem C4_queuedAckUnconditional :
    ∀ (c : Acad.CourseCreationNotify) (f : Acad.FacultyAssignmentNotify)
      (s : Acad.StudentEnrollmentNotify) (r : Acad.ResultReleaseNotify)
      (dt : Acad.StudentDetentionNotify) (cs : Acad.StudentCreditShortageNotify)
      (e : Acad.EventNotify),
      Acad.validateCourseCreation c = true →
      Acad.validateFacultyAssignment f = true →
      Acad.validateStudentEnrollment s = true →
      (r.student_list.all fun st => (dget st "email").isSome && (dget st "id").isSome) = true →
      Acad.validateStudentDetention dt = true →
      Acad.validateCreditShortage cs = true →
      Acad.validateEventNotify e = true →
      Acad.courseCreationEndpoint c =
        .success (Acad.notify_course_creation c).1
          ⟨"SUCCESS", "Course notifications queued."⟩ ∧
      Acad.facultyAssignmentEndpoint f =
        .success (Acad.notify_faculty_assignment f).1
          ⟨"SUCCESS", "Faculty and students notified."⟩ ∧
      Acad.studentEnrollmentEndpoint s =
        .success (Acad.notify_student_enrollment s).1
          ⟨"SUCCESS", "Enrollment notifications queued."⟩ ∧
      Acad.resultsReleaseEndpoint r =
        .success (Acad.notify_results_release r).1
          ⟨"SUCCESS", "Result notifications queued."⟩ ∧
      Acad.studentDetentionEndpoint dt =
        .success (Acad.notify_student_detention dt).1
          ⟨"SUCCESS", "Detention notification queued."⟩ ∧
      Acad.creditShortageEndpoint cs =
        .success (Acad.notify_student_credit_shortage cs).1
          ⟨"SUCCESS", "Credit shortage notification queued."⟩ ∧
      Acad.eventUpdateEndpoint e =
        .success (Acad.notify_event_update e).1
          ⟨"SUCCESS", "Alerts sent for " ++ e.event_name ++ "."⟩ := by
  intro c f s r dt cs e hc hf hs hr hdt hcs he
  refine ⟨?_, ?_, ?_, ?_, ?_, ?_, ?_⟩
  · simp [Acad.courseCreationEndpoint, hc, Acad.notify_course_creation]
  · simp [Acad.facultyAssignmentEndpoint, hf, Acad.notify_faculty_assignment]
  · simp [Acad.studentEnrollmentEndpoint, hs, Acad.notify_student_enrollment]
  · have hok := resultsLoop_allKeys (Acad.resultsReleaseSubject r.exam_name)
      (Acad.resultsReleaseBody r.exam_name) r.student_list [] hr
    simp only [Acad.resultsReleaseEndpoint, Acad.validateResultRelease, if_true]
    rw [show Acad.notify_results_release r =
      ((Acad.notify_results_release r).1, (Acad.notify_results_release r).2) from rfl]
    rw [show (Acad.notify_results_release r).2 =
      (Acad.resultsLoop (Acad.resultsReleaseSubject r.exam_name)
        (Acad.resultsReleaseBody r.exam_name) r.student_list []).2 from rfl]
    rw [hok]
  · simp [Acad.studentDetentionEndpoint, hdt, Acad.notify_student_detention]
  · simp [Acad.creditShortageEndpoint, hcs, Acad.notify_student_credit_shortage]
  · simp [Acad.eventUpdateEndpoint, he, Acad.notify_event_update]

/-- C4 witness: the amended theorem applied to concrete validated
payloads for all seven fire-and-forget endpoints. -/
theorem C4_queuedAckUnconditional_witness :
    Acad.courseCreationEndpoint ⟨"Algorithms", "Fall 2025", ["a@uni.edu"]⟩ =
        .success (Acad.notify_course_creation ⟨"Algorithms", "Fall 2025", ["a@uni.edu"]⟩).1
          ⟨"SUCCESS", "Course notifications queued."⟩ ∧
      Acad.facultyAssignmentEndpoint ⟨"F1", "prof@uni.edu", "Ada", "Algorithms", []⟩ =
        .success (Acad.notify_faculty_assignment ⟨"F1", "prof@uni.edu", "Ada", "Algorithms", []⟩).1
          ⟨"SUCCESS", "Faculty and students notified."⟩ ∧
      Acad.studentEnrollmentEndpoint ⟨"S1", "Stu", "stu@uni.edu", "Algorithms", "F1", "prof@uni.edu"⟩ =
        .success (Acad.notify_student_enrollment
            ⟨"S1", "Stu", "stu@uni.edu", "Algorithms", "F1", "prof@uni.edu"⟩).1
          ⟨"SUCCESS", "Enrollment notifications queued."⟩ ∧
      Acad.resultsReleaseEndpoint ⟨"Midterm", [[("email", "a@uni.edu"), ("id", "S1")]]⟩ =
        .success (Acad.notify_results_release ⟨"Midterm", [[("email", "a@uni.edu"), ("id", "S1")]]⟩).1
          ⟨"SUCCESS", "Result notifications queued."⟩ ∧
      Acad.studentDetentionEndpoint ⟨"S1", "Stu", "stu@uni.edu", "Attendance shortage"⟩ =
        .success (Acad.notify_student_detention ⟨"S1", "Stu", "stu@uni.edu", "Attendance shortage"⟩).1
          ⟨"SUCCESS", "Detention notification queued."⟩ ∧
      Acad.creditShortageEndpoint ⟨"S1", "Stu", "stu@uni.edu", "5.0", "20.0"⟩ =
        .success (Acad.notify_student_credit_shortage ⟨"S1", "Stu", "stu@uni.edu", "5.0", "20.0"⟩).1
          ⟨"SUCCESS", "Credit shortage notification queued."⟩ ∧
      Acad.eventUpdateEndpoint ⟨"Tech Fest", "CANCELLED", "Venue closed", ["a@uni.edu"]⟩ =
        .success (Acad.notify_event_update ⟨"Tech Fest", "CANCELLED", "Venue closed", ["a@uni.edu"]⟩).1
          ⟨"SUCCESS", "Alerts sent for " ++ "Tech Fest" ++ "."⟩ :=
  C4_queuedAckUnconditional ⟨"Algorithms", "Fall 2025", ["a@uni.edu"]⟩
    ⟨"F1", "prof@uni.edu", "Ada", "Algorithms", []⟩
    ⟨"S1", "Stu", "stu@uni.edu", "Algorithms", "F1", "prof@uni.edu"⟩
    ⟨"Midterm", [[("email", "a@uni.edu"), ("id", "S1")]]⟩
    ⟨"S1", "Stu", "stu@uni.edu", "Attendance shortage"⟩
    ⟨"S1", "Stu", "stu@uni.edu", "5.0", "20.0"⟩
    ⟨"Tech Fest", "CANCELLED", "Venue closed", ["a@uni.edu"]⟩
    (by decide) (by decide) (by decide) (by decide) (by decide) (by decide) (by decide)

/-- C5: the synchronous supplier endpoints return {status: success} when
the transport transaction succeeds, and convert any transport exception
into a 500 response whose detail is exactly the underlying failure
text. -/
theorem C5_supplierPropagation :
    ∀ (o₁ o₂ : Store.SmtpOutcome) (sender : String)
      (p : Store.SupplierToStoreRequest) (q : Store.SupplierFailureRequest)
      (ts e : String),
      Store.smtpErr o₁ = none →
      Store.smtpErr o₂ = some e →
      Store.supplier_to_storeowner_email o₁ sender p = .ok "success" ∧
      Store.supplier_delivery_failed_email o₁ sender q ts = .ok "success" ∧
      Store.supplier_to_storeowner_email o₂ sender p = .httpError 500 e ∧
      Store.supplier_delivery_failed_email o₂ sender q ts = .httpError 500 e := by
  intro o₁ o₂ sender p q ts e h1 h2
  refine ⟨?_, ?_, ?_, ?_⟩ <;>
    simp [Store.supplier_to_storeowner_email, Store.supplier_delivery_failed_email,
      Store.send_html_email, h1, h2]

/-- C5 witness: the theorem applied to an all-success session and a
session whose login step raises an authentication error. -/
theorem C5_supplierPropagation_witness :
    Store.supplier_to_storeowner_email ⟨none, none, none, none, none⟩ "svc@synap.store"
        ⟨"owner@store.com", "MediMart", "PharmaCo", "INV-7", [("Paracetamol", 20)], "2025-10-20"⟩ =
      .ok "success" ∧
    Store.supplier_delivery_failed_email ⟨none, none, none, none, none⟩ "svc@synap.store"
        ⟨"sup@pharma.co", "MediMart", "owner@store.com", "PharmaCo", "INV-7", "mailbox unavailable"⟩
        "12 Oct 2025, 10:00 UTC" =
      .ok "success" ∧
    Store.supplier_to_storeowner_email ⟨none, none, none, some "SMTP authentication failed", none⟩
        "svc@synap.store"
        ⟨"owner@store.com", "MediMart", "PharmaCo", "INV-7", [("Paracetamol", 20)], "2025-10-20"⟩ =
      .httpError 500 "SMTP authentication failed" ∧
    Store.supplier_delivery_failed_email ⟨none, none, none, some "SMTP authentication failed", none⟩
        "svc@synap.store"
        ⟨"sup@pharma.co", "MediMart", "owner@store.com", "PharmaCo", "INV-7", "mailbox unavailable"⟩
        "12 Oct 2025, 10:00 UTC" =
      .httpError 500 "SMTP authentication failed" :=
  C5_supplierPropagation ⟨none, none, none, none, none⟩
    ⟨none, none, none, some "SMTP authentication failed", none⟩ "svc@synap.store"
    ⟨"owner@store.com", "MediMart", "PharmaCo", "INV-7", [("Paracetamol", 20)], "2025-10-20"⟩
    ⟨"sup@pharma.co", "MediMart", "owner@store.com", "PharmaCo", "INV-7", "mailbox unavailable"⟩
    "12 Oct 2025, 10:00 UTC" "SMTP authentication failed" rfl rfl

/-- C7: on each batch endpoint (course-creation, results-release,
event-update) an empty recipient list yields a success response and an
empty task list — zero transport invocations. -/
theorem C7_emptyRecipientLists :
    ∀ (cn sem ex en ut det : String),
      Acad.courseCreationEndpoint ⟨cn, sem, []⟩ =
        .success [] ⟨"SUCCESS", "Course notifications queued."⟩ ∧
      Acad.resultsReleaseEndpoint ⟨ex, []⟩ =
        .success [] ⟨"SUCCESS", "Result notifications queued."⟩ ∧
      Acad.eventUpdateEndpoint ⟨en, ut, det, []⟩ =
        .success [] ⟨"SUCCESS", "Alerts sent for " ++ en ++ "."⟩ := by
  intro cn sem ex en ut det
  exact ⟨rfl, rfl, rfl⟩

/-- C8 counterexample: with both SMTP_USER and SMTP_PASS absent from the
environment, the academic service substitutes its hardcoded defaults and
starts successfully — it does not fail to start. -/
theorem C8_acadStartsWithoutCreds_counterexample :
    Acad.startupCheck none none = StartupResult.ok ∧
    Acad.SENDER_EMAIL none = "sjsvardhan@gmail.com" := by
  exact ⟨by decide, rfl⟩

/-- C8 amended: app.py reads the credential pair from the environment at
startup and fails to start exactly when either credential is absent or
empty; academic_notify.py falls back to hardcoded defaults for an absent
variable and fails to start only when a credential is set to the empty
string. -/
theorem C8_startupCredentialCheck :
    ∀ (u p : Option String),
      (Store.validate_env u p = .ok ↔ pyTruthy u = true ∧ pyTruthy p = true) ∧
      (Acad.startupCheck u p = .ok ↔ (u ≠ some "" ∧ p ≠ some "")) := by
  intro u p
  constructor
  · cases hu : pyTruthy u <;> cases hp : pyTruthy p <;>
      simp [Store.validate_env, Store.SMTP_USER, Store.SMTP_PASS, hu, hp]
  · cases u <;> cases p <;>
      simp [Acad.startupCheck, Acad.SENDER_EMAIL, Acad.SENDER_PASSWORD]

/-- C9: `send_email_async` is total with codomain Bool — it cannot
propagate an exception to the task runner — and returns true exactly
when every step of the SMTP transaction (message build, connect,
STARTTLS, login, send, quit) completes without raising; any raised
exception yields false. -/
theorem C9_sendEmailAsyncNeverRaises :
    ∀ (o : Acad.SmtpOutcome) (sender rcpt subj body : String) (hb : Option String),
      Acad.send_email_async o sender rcpt subj body hb = true ↔
        Acad.smtpErr o = none := by
  intro o sender rcpt subj body hb
  obtain ⟨b, c, st, l, s, q⟩ := o
  cases b <;> cases c <;> cases st <;> cases l <;> cases s <;> cases q <;>
    simp [Acad.send_email_async, Acad.smtpErr]

/-- C10: the results-release schema requires no "email"/"id" keys inside
student_list entries, so the payload with a second entry lacking "email"
is valid; the handler queues the send and log tasks for the first entry
and then raises an unhandled KeyError — a server error, not a client
validation error. -/
theorem C10_resultsReleaseKeyError :
    Acad.validateResultRelease ⟨"Midterm Exam",
        [[("email", "a@uni.edu"), ("id", "S1")], [("id", "S2")]]⟩ = true ∧
    Acad.resultsReleaseEndpoint ⟨"Midterm Exam",
        [[("email", "a@uni.edu"), ("id", "S1")], [("id", "S2")]]⟩ =
      .serverRaise
        [.sendEmail "a@uni.edu" (Acad.resultsReleaseSubject "Midterm Exam")
           (Acad.resultsReleaseBody "Midterm Exam") none,
         .saveNotification "S1" "Results Published"
           (Acad.resultsReleaseBody "Midterm Exam") "EXAM"]
        "KeyError: \x27email\x27" := by
  exact ⟨rfl, rfl⟩

end MailService
